import Mathlib

/-!
Verification of the reasoning-mashup service: a two-stage LLM chain
(reasoning model, then response model) behind an HTTP API, plus multi-step
agent workflows that thread an accumulating context through a fixed task
sequence.  The definitions below are a shallow embedding of the Python
sources (`api/main.py`, `api/main_ollama.py`, `api/research_workflow.py`,
`api/sales_qualification_workflow.py`, `api/proxy_config.py`); network
backends are modelled as oracle functions, and exceptions as `Except` /
`Option` results.
-/

namespace ReasoningMashup

/-! ## Reasoning extraction

`main.py` / `main_ollama.py` both run
`re.search(r'<think>(.*?)</think>', full_content, re.DOTALL)` and return
the stripped first capture group, falling back to the whole content when
there is no match.  We model text as `List Char`; the regex engine's
leftmost, non-greedy match is implemented by `splitFirst`. -/

/-- `startsWith pat s` holds when `pat` is an initial segment of `s`. -/
def startsWith : List Char → List Char → Bool
  | [], _ => true
  | _ :: _, [] => false
  | p :: ps, c :: cs => p == c && startsWith ps cs

/-- Split `s` at the leftmost occurrence of `pat`: returns
`some (before, after)` with `s = before ++ pat ++ after` and `before`
shortest, or `none` when `pat` does not occur in `s`. -/
def splitFirst (pat : List Char) : List Char → Option (List Char × List Char)
  | [] => if pat.isEmpty then some ([], []) else none
  | c :: cs =>
    if startsWith pat (c :: cs) then some ([], (c :: cs).drop pat.length)
    else (splitFirst pat cs).map fun pr => (c :: pr.1, pr.2)

def thinkOpen : List Char := "<think>".data

def thinkClose : List Char := "</think>".data

/-- Whitespace for Python's `str.strip` (ASCII portion, which is what the
model responses use). -/
def isSpaceChar (c : Char) : Bool :=
  c == ' ' || c == '\t' || c == '\n' || c == '\r' || c == '\x0b' || c == '\x0c'

/-- Python `str.strip()`: drop whitespace from both ends. -/
def trimL (s : List Char) : List Char :=
  ((s.dropWhile isSpaceChar).reverse.dropWhile isSpaceChar).reverse

/-- Interior of the leftmost, non-greedy `<think>...</think>` match of the
DOTALL regex, when there is one.  The regex pattern begins with the
literal `<think>`, so the match starts at the first occurrence of
`<think>`; the lazy `(.*?)` then stops at the first later `</think>`.
(When the text after the first `<think>` holds no `</think>` at all, no
later starting position can complete a match either.) -/
def thinkInterior (s : List Char) : Option (List Char) :=
  match splitFirst thinkOpen s with
  | none => none
  | some (_, rest) =>
    match splitFirst thinkClose rest with
    | none => none
    | some (mid, _) => some mid

/-- `main.py:92-94` / `main_ollama.py:88-90`:
`think_match.group(1).strip() if think_match else full_content`. -/
def extractL (s : List Char) : List Char :=
  match thinkInterior s with
  | some mid => trimL mid
  | none => s

/-- String-level wrapper used by the chat chain. -/
def extractReasoning (s : String) : String :=
  ⟨extractL s.data⟩

/-- `pat` occurs in `s` at position `i`. -/
def occursAt (pat s : List Char) (i : Nat) : Bool :=
  startsWith pat (s.drop i)

/-- `s` holds a complete `<think>...</think>` region: an occurrence of the
opener followed (at or after its end) by an occurrence of the closer. -/
def hasRegion (s : List Char) : Prop :=
  ∃ i < s.length, occursAt thinkOpen s i = true ∧
    ∃ j < s.length, i + thinkOpen.length ≤ j ∧ occursAt thinkClose s j = true

instance (s : List Char) : Decidable (hasRegion s) := by
  unfold hasRegion; infer_instance

/-! ### Facts about `startsWith` and `splitFirst` -/

theorem startsWith_iff_exists (pat s : List Char) :
    startsWith pat s = true ↔ ∃ t, s = pat ++ t := by
  induction pat generalizing s with
  | nil => simp [startsWith]
  | cons p ps ih =>
    cases s with
    | nil => simp [startsWith]
    | cons c cs =>
      simp only [startsWith, Bool.and_eq_true, beq_iff_eq, ih, List.cons_append,
        List.cons.injEq]
      constructor
      · rintro ⟨rfl, t, rfl⟩; exact ⟨t, rfl, rfl⟩
      · rintro ⟨t, rfl, rfl⟩; exact ⟨rfl, t, rfl⟩

theorem startsWith_append (pat t : List Char) : startsWith pat (pat ++ t) = true :=
  (startsWith_iff_exists pat (pat ++ t)).2 ⟨t, rfl⟩

theorem startsWith_drop (pat s : List Char) (h : startsWith pat s = true) :
    s = pat ++ s.drop pat.length := by
  obtain ⟨t, rfl⟩ := (startsWith_iff_exists pat s).1 h
  simp

/-- Soundness: a `splitFirst` result really decomposes the input. -/
theorem splitFirst_sound (pat : List Char) :
    ∀ s a b, splitFirst pat s = some (a, b) → s = a ++ pat ++ b := by
  intro s
  induction s with
  | nil =>
    intro a b h
    by_cases hp : pat.isEmpty
    · simp only [splitFirst, hp, if_pos] at h
      obtain ⟨rfl, rfl⟩ := Prod.mk.injEq .. ▸ Option.some.inj h
      simp [List.isEmpty_iff.1 hp]
    · simp [splitFirst, hp] at h
  | cons c cs ih =>
    intro a b h
    by_cases hs : startsWith pat (c :: cs) = true
    · simp only [splitFirst, hs, if_pos] at h
      obtain ⟨rfl, rfl⟩ := Prod.mk.injEq .. ▸ Option.some.inj h
      simpa using startsWith_drop pat (c :: cs) hs
    · simp only [splitFirst, hs, Bool.false_eq_true, if_false] at h
      cases hsp : splitFirst pat cs with
      | none => simp [hsp] at h
      | some pr =>
        simp only [hsp, Option.map_some] at h
        obtain ⟨h1, rfl⟩ := Prod.mk.injEq .. ▸ Option.some.inj h
        subst h1
        simpa using ih pr.1 pr.2 (by simp [hsp])

/-- Completeness: when `pat` occurs, `splitFirst` finds something. -/
theorem splitFirst_isSome (pat : List Char) :
    ∀ x y, (splitFirst pat (x ++ pat ++ y)).isSome = true := by
  intro x
  induction x with
  | nil =>
    intro y
    simp only [List.nil_append]
    cases hpy : pat ++ y with
    | nil =>
      have hp : pat.isEmpty := by
        cases pat with
        | nil => rfl
        | cons a as => simp at hpy
      simp [splitFirst, hp]
    | cons c cs =>
      have hst : startsWith pat (c :: cs) = true := by
        rw [← hpy]; exact startsWith_append pat y
      simp [splitFirst, hst]
  | cons c cs ih =>
    intro y
    simp only [List.cons_append]
    by_cases hs : startsWith pat (c :: (cs ++ (pat ++ y))) = true
    · simp [splitFirst, hs]
    · have := ih y
      simp only [List.append_assoc] at this
      simp [splitFirst, hs, Option.isSome_map, this]

/-- Minimality: `splitFirst` returns the leftmost occurrence. -/
theorem splitFirst_minimal (pat : List Char) :
    ∀ s a b, splitFirst pat s = some (a, b) →
      ∀ x y, s = x ++ pat ++ y → a.length ≤ x.length := by
  intro s
  induction s with
  | nil =>
    intro a b h x y hxy
    by_cases hp : pat.isEmpty
    · simp only [splitFirst, hp, if_pos] at h
      obtain ⟨rfl, rfl⟩ := Prod.mk.injEq .. ▸ Option.some.inj h
      simp
    · simp [splitFirst, hp] at h
  | cons c cs ih =>
    intro a b h x y hxy
    by_cases hs : startsWith pat (c :: cs) = true
    · simp only [splitFirst, hs, if_pos] at h
      obtain ⟨rfl, rfl⟩ := Prod.mk.injEq .. ▸ Option.some.inj h
      simp
    · simp only [splitFirst, hs, Bool.false_eq_true, if_false] at h
      cases hsp : splitFirst pat cs with
      | none => simp [hsp] at h
      | some pr =>
        simp only [hsp, Option.map_some] at h
        obtain ⟨h1, -⟩ := Prod.mk.injEq .. ▸ Option.some.inj h
        subst h1
        cases x with
        | nil =>
          exfalso
          apply hs
          rw [hxy]
          simpa using startsWith_append pat y
        | cons d ds =>
          have hc : c = d ∧ cs = ds ++ pat ++ y := by
            have h' := hxy
            simp only [List.cons_append, List.cons.injEq] at h'
            exact ⟨h'.1, by simpa using h'.2⟩
          simpa using Nat.succ_le_succ (ih pr.1 pr.2 (by simp [hsp]) ds y hc.2)

theorem occursAt_of_decomp (pat x y : List Char) :
    occursAt pat (x ++ pat ++ y) x.length = true := by
  unfold occursAt
  rw [List.append_assoc, List.drop_left]
  exact startsWith_append pat y

theorem decomp_of_occursAt (pat s : List Char) (i : Nat)
    (h : occursAt pat s i = true) :
    s = s.take i ++ pat ++ s.drop (i + pat.length) := by
  unfold occursAt at h
  obtain ⟨t, ht⟩ := (startsWith_iff_exists pat (s.drop i)).1 h
  have h2 : s.drop (i + pat.length) = t := by
    rw [← List.drop_drop, ht, List.drop_left]
  rw [h2, List.append_assoc, ← ht, List.take_append_drop]

/-- The first `<think>` opener of a delimited region sits strictly inside the
text, so `hasRegion` may bound its quantifiers by the text length. -/
theorem hasRegion_of_interior (s a rest m r : List Char)
    (ha : s = a ++ thinkOpen ++ rest) (hm : rest = m ++ thinkClose ++ r) :
    hasRegion s := by
  refine ⟨a.length, ?_, ?_, (a ++ thinkOpen ++ m).length, ?_, ?_, ?_⟩
  · subst ha; subst hm
    simp only [List.length_append]
    have : 0 < thinkOpen.length := by decide
    omega
  · rw [ha]; exact occursAt_of_decomp thinkOpen a rest
  · subst ha; subst hm
    simp only [List.length_append]
    have : 0 < thinkClose.length := by decide
    omega
  · simp only [List.length_append]; omega
  · have : s = (a ++ thinkOpen ++ m) ++ thinkClose ++ r := by
      rw [ha, hm]; simp [List.append_assoc]
    rw [this]
    exact occursAt_of_decomp thinkClose (a ++ thinkOpen ++ m) r

/-- C2: for every raw text, if the text contains a `<think>...</think>`
delimited region (case-sensitive, spanning lines), extraction returns
exactly the whitespace-trimmed interior of the first such region
(non-greedy: first opener, first closer after it), ignoring any later
regions; if no such region exists it returns the input unchanged.  The
extraction is a total function, so it never fails.  The first-region
hypotheses say that the opener does not occur before `pre.length` and the
closer does not occur before `mid.length` in the remainder; the tail
`post` is unconstrained and may hold further regions. -/
theorem c2_reasoning_extraction (s pre mid post t : List Char)
    (hs : s = pre ++ thinkOpen ++ mid ++ thinkClose ++ post)
    (hpre : ∀ i < pre.length, occursAt thinkOpen s i = false)
    (hmid : ∀ i < mid.length, occursAt thinkClose (mid ++ thinkClose ++ post) i = false)
    (ht : ¬ hasRegion t) :
    extractL s = trimL mid ∧ extractL t = t := by
  constructor
  · have hopen : (splitFirst thinkOpen s).isSome = true := by
      rw [hs]
      simpa [List.append_assoc] using
        splitFirst_isSome thinkOpen pre (mid ++ thinkClose ++ post)
    obtain ⟨⟨a, b⟩, hab⟩ := Option.isSome_iff_exists.1 hopen
    have hsab : s = a ++ thinkOpen ++ b := splitFirst_sound thinkOpen s a b hab
    have hmin : a.length ≤ pre.length :=
      splitFirst_minimal thinkOpen s a b hab pre (mid ++ thinkClose ++ post)
        (by rw [hs]; simp [List.append_assoc])
    have heq : a.length = pre.length := by
      rcases Nat.lt_or_ge a.length pre.length with hlt | hge
      · exfalso
        have hocc : occursAt thinkOpen s a.length = true := by
          rw [hsab]; exact occursAt_of_decomp thinkOpen a b
        have := hpre a.length hlt
        rw [this] at hocc
        exact Bool.false_ne_true hocc
      · exact Nat.le_antisymm hmin hge
    have e1 : pre ++ (thinkOpen ++ (mid ++ (thinkClose ++ post))) = s := by
      rw [hs]; simp [List.append_assoc]
    have e2 : a ++ (thinkOpen ++ b) = s := by
      rw [hsab]; simp [List.append_assoc]
    obtain ⟨hpa, hrest⟩ := List.append_inj (e2.trans e1.symm) heq
    have hb : b = mid ++ (thinkClose ++ post) :=
      List.append_cancel_left hrest
    have hclose : (splitFirst thinkClose b).isSome = true := by
      rw [hb]
      simpa [List.append_assoc] using splitFirst_isSome thinkClose mid post
    obtain ⟨⟨m, r⟩, hmr⟩ := Option.isSome_iff_exists.1 hclose
    have hbmr : b = m ++ thinkClose ++ r := splitFirst_sound thinkClose b m r hmr
    have hb' : b = mid ++ thinkClose ++ post := by rw [hb]; simp [List.append_assoc]
    have hmin2 : m.length ≤ mid.length :=
      splitFirst_minimal thinkClose b m r hmr mid post hb'
    have heq2 : m.length = mid.length := by
      rcases Nat.lt_or_ge m.length mid.length with hlt | hge
      · exfalso
        have hocc : occursAt thinkClose (mid ++ thinkClose ++ post) m.length = true := by
          rw [← hb', hbmr]; exact occursAt_of_decomp thinkClose m r
        have := hmid m.length hlt
        rw [this] at hocc
        exact Bool.false_ne_true hocc
      · exact Nat.le_antisymm hmin2 hge
    have e3 : m ++ (thinkClose ++ r) = mid ++ (thinkClose ++ post) := by
      rw [← List.append_assoc, ← hbmr, hb]
    obtain ⟨hm, -⟩ := List.append_inj e3 heq2
    simp [extractL, thinkInterior, hab, hmr, hm]
  · cases hI : thinkInterior t with
    | none => simp [extractL, hI]
    | some mid' =>
      exfalso
      apply ht
      rw [thinkInterior] at hI
      cases hsp : splitFirst thinkOpen t with
      | none => rw [hsp] at hI; simp at hI
      | some pr =>
        rw [hsp] at hI
        cases hsp2 : splitFirst thinkClose pr.2 with
        | none => simp [hsp2] at hI
        | some pr2 =>
          exact hasRegion_of_interior t pr.1 pr.2 pr2.1 pr2.2
            (splitFirst_sound thinkOpen t pr.1 pr.2 (by simpa using hsp))
            (splitFirst_sound thinkClose pr.2 pr2.1 pr2.2 (by simpa using hsp2))

/-- Witness for `c2_reasoning_extraction` at concrete inputs: a text with
two regions (only the first is taken, its interior trimmed), and a text
with an orphan closer before an orphan opener (returned unchanged). -/
theorem c2_reasoning_extraction_witness :
    extractL ("ab<think> hi </think>tail<think>x</think>".data) = trimL (" hi ".data) ∧
    extractL ("no region</think> here<think>".data) = "no region</think> here<think>".data :=
  c2_reasoning_extraction
    ("ab<think> hi </think>tail<think>x</think>".data)
    ("ab".data) (" hi ".data) ("tail<think>x</think>".data)
    ("no region</think> here<think>".data)
    (by decide) (by decide) (by decide) (by decide)

/-! ## The two-stage chat chain

`main.py` (Ollama reasoning + OpenRouter response, Shape A messages) and
`main_ollama.py` (Ollama for both stages, Shape B messages).  A backend is
an oracle from model name and messages to a raw result or an exception;
`chat` additionally returns the trace of chat-completion calls it issued,
in order. -/

structure Msg where
  role : String
  content : String
deriving DecidableEq

/-- Raw chat-completion result as read off the backend payload:
`choices[0].message.content` plus the optional `id` field. -/
structure RawResponse where
  content : String
  id : Option String
deriving DecidableEq

/-- `getattr(response, 'id', 'unknown')`: a missing identifier degrades to
the literal "unknown", never an error. -/
def requestId (r : RawResponse) : String := r.id.getD "unknown"

/-- A backend chat-completion service: model name and message sequence in,
raw response or exception message out.  Transport failures, non-2xx
statuses and malformed payloads (the `choices` check in
`get_claude_response`) are all `Except.error`. -/
def Backend : Type := String → List Msg → Except String RawResponse

/-- One chat-completion call issued to a backend, recorded for the trace. -/
structure CallRecord where
  model : String
  messages : List Msg
deriving DecidableEq

/-- The `request_ids` dict of a `ChatResponse`. -/
structure RequestIds where
  reasoning : String
  response : String
deriving DecidableEq

structure ChatRequest where
  message : String
  show_reasoning : Bool
  model : String
deriving DecidableEq

/-- Body of a 200 response of `POST /chat`; `elapsed_time` is the
wall-clock measurement, carried opaquely. -/
structure ChatResponse where
  reasoning : String
  response : String
  model : String
  elapsed_time : Nat
  request_ids : RequestIds
deriving DecidableEq

namespace MainApi

def OLLAMA_MODEL : String := "deepseek-r1:8b"

def CLAUDE_MODEL : String := "anthropic/claude-3.5-sonnet"

/-- Messages of the reasoning call (`main.py:83-86`). -/
def reasoning_messages (user_input : String) : List Msg :=
  [⟨"system", "You are a helpful assistant."⟩, ⟨"user", user_input⟩]

/-- Shape A (cross-service) messages of the response call
(`main.py:102-111`). -/
def claude_messages (user_input reasoning : String) : List Msg :=
  [⟨"user", user_input⟩,
   ⟨"assistant", "<thinking>" ++ reasoning ++ "</thinking>"⟩]

/-- `ModelChain.get_deepseek_reasoning` (`main.py:78-97`): one Ollama
call; on success the `<think>` interior is extracted, on any exception a
500 detail is raised.  The second component records the issued call. -/
def get_deepseek_reasoning (ollama_client : Backend) (user_input : String) :
    Except String (String × String) × CallRecord :=
  let call : CallRecord := ⟨OLLAMA_MODEL, reasoning_messages user_input⟩
  match ollama_client OLLAMA_MODEL (reasoning_messages user_input) with
  | .error e => (.error ("Error getting reasoning: " ++ e), call)
  | .ok raw => (.ok (extractReasoning raw.content, requestId raw), call)

/-- `ModelChain.get_claude_response` (`main.py:99-135`): one OpenRouter
call with the Shape A messages. -/
def get_claude_response (openrouter_client : Backend)
    (user_input reasoning model : String) :
    Except String (String × String) × CallRecord :=
  let call : CallRecord := ⟨model, claude_messages user_input reasoning⟩
  match openrouter_client model (claude_messages user_input reasoning) with
  | .error e => (.error ("Error getting response: " ++ e), call)
  | .ok raw => (.ok (raw.content, requestId raw), call)

/-- The `/chat` endpoint of `main.py:140-186`.  `Except.error d` models the
500 response with detail string `d` (the outer handler re-raises any
failure as `HTTPException(500, str(e))`; we carry the stage's detail
text through), `Except.ok` models the 200 response.  `elapsed` stands for
`time.time() - start_time`.  The second component is the ordered trace of
backend chat-completion calls issued. -/
def chat (ollama_client openrouter_client : Backend) (elapsed : Nat)
    (request : ChatRequest) : Except String ChatResponse × List CallRecord :=
  match get_deepseek_reasoning ollama_client request.message with
  | (.error e, c1) => (.error e, [c1])
  | (.ok (reasoning, reasoning_id), c1) =>
    match get_claude_response openrouter_client request.message reasoning
        request.model with
    | (.error e, c2) => (.error e, [c1, c2])
    | (.ok (response, response_id), c2) =>
      (.ok { reasoning := if request.show_reasoning then reasoning else ""
             response := response
             model := request.model
             elapsed_time := elapsed
             request_ids := ⟨reasoning_id, response_id⟩ }, [c1, c2])

end MainApi

namespace MainOllama

def REASONING_MODEL : String := "deepseek-r1:8b"

def RESPONSE_MODEL : String := "phi4"

/-- Messages of the reasoning call (`main_ollama.py:79-82`). -/
def reasoning_messages (user_input : String) : List Msg :=
  [⟨"system", "You are a helpful assistant."⟩, ⟨"user", user_input⟩]

/-- Shape B (same-service) messages of the response call
(`main_ollama.py:100-105`). -/
def final_messages (user_input reasoning : String) : List Msg :=
  [⟨"system", "You are a helpful assistant that provides clear, accurate, and well-structured responses."⟩,
   ⟨"user", user_input⟩,
   ⟨"assistant", "<thinking>" ++ reasoning ++ "</thinking>"⟩,
   ⟨"user", "Based on this reasoning, please provide a clear and comprehensive response."⟩]

/-- `ModelChain.get_deepseek_reasoning` (`main_ollama.py:74-93`). -/
def get_deepseek_reasoning (ollama_client : Backend) (user_input : String) :
    Except String (String × String) × CallRecord :=
  let call : CallRecord := ⟨REASONING_MODEL, reasoning_messages user_input⟩
  match ollama_client REASONING_MODEL (reasoning_messages user_input) with
  | .error e => (.error ("Error getting reasoning: " ++ e), call)
  | .ok raw => (.ok (extractReasoning raw.content, requestId raw), call)

/-- `ModelChain.get_final_response` (`main_ollama.py:95-116`): a second
call to the same local Ollama service with the Shape B messages. -/
def get_final_response (ollama_client : Backend)
    (user_input reasoning model : String) :
    Except String (String × String) × CallRecord :=
  let call : CallRecord := ⟨model, final_messages user_input reasoning⟩
  match ollama_client model (final_messages user_input reasoning) with
  | .error e => (.error ("Error getting response: " ++ e), call)
  | .ok raw => (.ok (raw.content, requestId raw), call)

/-- The `/chat` endpoint of `main_ollama.py:121-167`; both stages go to
the single Ollama client. -/
def chat (ollama_client : Backend) (elapsed : Nat)
    (request : ChatRequest) : Except String ChatResponse × List CallRecord :=
  match get_deepseek_reasoning ollama_client request.message with
  | (.error e, c1) => (.error e, [c1])
  | (.ok (reasoning, reasoning_id), c1) =>
    match get_final_response ollama_client request.message reasoning
        request.model with
    | (.error e, c2) => (.error e, [c1, c2])
    | (.ok (response, response_id), c2) =>
      (.ok { reasoning := if request.show_reasoning then reasoning else ""
             response := response
             model := request.model
             elapsed_time := elapsed
             request_ids := ⟨reasoning_id, response_id⟩ }, [c1, c2])

end MainOllama

/-- A backend that always answers with fixed content and id (used by the
concrete witnesses). -/
def constBackend (text id : String) : Backend := fun _ _ => .ok ⟨text, some id⟩

/-- A backend that always raises (used by the concrete witnesses). -/
def errBackend (msg : String) : Backend := fun _ _ => .error msg

def sampleRequestShow : ChatRequest := ⟨"What is 2+2?", true, "anthropic/claude-3.5-sonnet"⟩

def sampleRequestHide : ChatRequest := ⟨"What is 2+2?", false, "anthropic/claude-3.5-sonnet"⟩

/-- C1: every chat invocation that completes successfully issues exactly
two backend chat-completion calls — the reasoning call followed by the
response call — and the second call's message sequence contains the
reasoning extracted from the first call's output embedded verbatim inside
a `<thinking>...</thinking>` wrapper in an assistant turn.  Both service
variants are covered. -/
theorem c1_two_calls_with_injected_reasoning
    (ollama openrouter : Backend) (elapsed : Nat) (request : ChatRequest)
    (hA : (MainApi.chat ollama openrouter elapsed request).1.isOk = true)
    (hB : (MainOllama.chat ollama elapsed request).1.isOk = true) :
    (∃ raw1 c2,
      ollama MainApi.OLLAMA_MODEL (MainApi.reasoning_messages request.message)
        = .ok raw1 ∧
      (MainApi.chat ollama openrouter elapsed request).2 =
        [⟨MainApi.OLLAMA_MODEL, MainApi.reasoning_messages request.message⟩, c2] ∧
      Msg.mk "assistant"
        ("<thinking>" ++ extractReasoning raw1.content ++ "</thinking>")
        ∈ c2.messages) ∧
    (∃ raw1 c2,
      ollama MainOllama.REASONING_MODEL (MainOllama.reasoning_messages request.message)
        = .ok raw1 ∧
      (MainOllama.chat ollama elapsed request).2 =
        [⟨MainOllama.REASONING_MODEL, MainOllama.reasoning_messages request.message⟩, c2] ∧
      Msg.mk "assistant"
        ("<thinking>" ++ extractReasoning raw1.content ++ "</thinking>")
        ∈ c2.messages) := by
  constructor
  · cases h1 : ollama MainApi.OLLAMA_MODEL (MainApi.reasoning_messages request.message) with
    | error e =>
      exfalso
      simp [MainApi.chat, MainApi.get_deepseek_reasoning, h1, Except.isOk, Except.toBool] at hA
    | ok raw1 =>
      cases h2 : openrouter request.model
          (MainApi.claude_messages request.message (extractReasoning raw1.content)) with
      | error e =>
        exfalso
        simp [MainApi.chat, MainApi.get_deepseek_reasoning,
          MainApi.get_claude_response, h1, h2, Except.isOk, Except.toBool] at hA
      | ok raw2 =>
        refine ⟨raw1,
          ⟨request.model,
           MainApi.claude_messages request.message (extractReasoning raw1.content)⟩,
          rfl, ?_, ?_⟩
        · simp [MainApi.chat, MainApi.get_deepseek_reasoning,
            MainApi.get_claude_response, h1, h2]
        · simp [MainApi.claude_messages]
  · cases h1 : ollama MainOllama.REASONING_MODEL (MainOllama.reasoning_messages request.message) with
    | error e =>
      exfalso
      simp [MainOllama.chat, MainOllama.get_deepseek_reasoning, h1, Except.isOk, Except.toBool] at hB
    | ok raw1 =>
      cases h2 : ollama request.model
          (MainOllama.final_messages request.message (extractReasoning raw1.content)) with
      | error e =>
        exfalso
        simp [MainOllama.chat, MainOllama.get_deepseek_reasoning,
          MainOllama.get_final_response, h1, h2, Except.isOk, Except.toBool] at hB
      | ok raw2 =>
        refine ⟨raw1,
          ⟨request.model,
           MainOllama.final_messages request.message (extractReasoning raw1.content)⟩,
          rfl, ?_, ?_⟩
        · simp [MainOllama.chat, MainOllama.get_deepseek_reasoning,
            MainOllama.get_final_response, h1, h2]
        · simp [MainOllama.final_messages]

/-- Witness for `c1_two_calls_with_injected_reasoning` on backends that
always succeed. -/
theorem c1_two_calls_with_injected_reasoning_witness :
    (∃ raw1 c2,
      constBackend "<think> four </think>tail" "id1" MainApi.OLLAMA_MODEL
          (MainApi.reasoning_messages sampleRequestShow.message) = .ok raw1 ∧
      (MainApi.chat (constBackend "<think> four </think>tail" "id1")
          (constBackend "answer" "id2") 7 sampleRequestShow).2 =
        [⟨MainApi.OLLAMA_MODEL, MainApi.reasoning_messages sampleRequestShow.message⟩, c2] ∧
      Msg.mk "assistant"
        ("<thinking>" ++ extractReasoning raw1.content ++ "</thinking>")
        ∈ c2.messages) ∧
    (∃ raw1 c2,
      constBackend "<think> four </think>tail" "id1" MainOllama.REASONING_MODEL
          (MainOllama.reasoning_messages sampleRequestShow.message) = .ok raw1 ∧
      (MainOllama.chat (constBackend "<think> four </think>tail" "id1") 7
          sampleRequestShow).2 =
        [⟨MainOllama.REASONING_MODEL, MainOllama.reasoning_messages sampleRequestShow.message⟩, c2] ∧
      Msg.mk "assistant"
        ("<thinking>" ++ extractReasoning raw1.content ++ "</thinking>")
        ∈ c2.messages) :=
  c1_two_calls_with_injected_reasoning
    (constBackend "<think> four </think>tail" "id1") (constBackend "answer" "id2")
    7 sampleRequestShow (by decide) (by decide)

/-- C3: if either the reasoning-stage call or the response-stage call
fails, the whole invocation fails — the 200 path (`Except.ok`) is taken
exactly when both stages succeeded, so no partial result ever reaches the
caller, and any failure surfaces as a 500 (`Except.error`) with a detail
string.  Both service variants are covered. -/
theorem c3_atomic_failure (ollama openrouter : Backend) (elapsed : Nat)
    (request : ChatRequest) :
    ((MainApi.chat ollama openrouter elapsed request).1.isOk = true ↔
      (∃ raw1 raw2,
        ollama MainApi.OLLAMA_MODEL (MainApi.reasoning_messages request.message)
          = .ok raw1 ∧
        openrouter request.model
          (MainApi.claude_messages request.message (extractReasoning raw1.content))
          = .ok raw2)) ∧
    ((MainApi.chat ollama openrouter elapsed request).1.isOk = false →
      ∃ d, (MainApi.chat ollama openrouter elapsed request).1 = .error d) ∧
    ((MainOllama.chat ollama elapsed request).1.isOk = true ↔
      (∃ raw1 raw2,
        ollama MainOllama.REASONING_MODEL (MainOllama.reasoning_messages request.message)
          = .ok raw1 ∧
        ollama request.model
          (MainOllama.final_messages request.message (extractReasoning raw1.content))
          = .ok raw2)) ∧
    ((MainOllama.chat ollama elapsed request).1.isOk = false →
      ∃ d, (MainOllama.chat ollama elapsed request).1 = .error d) := by
  refine ⟨?_, ?_, ?_, ?_⟩
  · cases h1 : ollama MainApi.OLLAMA_MODEL (MainApi.reasoning_messages request.message) with
    | error e =>
      simp [MainApi.chat, MainApi.get_deepseek_reasoning, h1, Except.isOk, Except.toBool]
    | ok raw1 =>
      cases h2 : openrouter request.model
          (MainApi.claude_messages request.message (extractReasoning raw1.content)) with
      | error e =>
        simp [MainApi.chat, MainApi.get_deepseek_reasoning,
          MainApi.get_claude_response, h1, h2, Except.isOk, Except.toBool]
      | ok raw2 =>
        simp only [MainApi.chat, MainApi.get_deepseek_reasoning,
          MainApi.get_claude_response, h1, h2]
        constructor
        · exact fun _ => ⟨raw1, raw2, rfl, h2⟩
        · intro
          simp [Except.isOk, Except.toBool]
  · intro h
    cases hc : (MainApi.chat ollama openrouter elapsed request).1 with
    | error d => exact ⟨d, rfl⟩
    | ok v => rw [hc] at h; simp [Except.isOk, Except.toBool] at h
  · cases h1 : ollama MainOllama.REASONING_MODEL (MainOllama.reasoning_messages request.message) with
    | error e =>
      simp [MainOllama.chat, MainOllama.get_deepseek_reasoning, h1, Except.isOk,
        Except.toBool]
    | ok raw1 =>
      cases h2 : ollama request.model
          (MainOllama.final_messages request.message (extractReasoning raw1.content)) with
      | error e =>
        simp [MainOllama.chat, MainOllama.get_deepseek_reasoning,
          MainOllama.get_final_response, h1, h2, Except.isOk, Except.toBool]
      | ok raw2 =>
        simp only [MainOllama.chat, MainOllama.get_deepseek_reasoning,
          MainOllama.get_final_response, h1, h2]
        constructor
        · exact fun _ => ⟨raw1, raw2, rfl, h2⟩
        · intro
          simp [Except.isOk, Except.toBool]
  · intro h
    cases hc : (MainOllama.chat ollama elapsed request).1 with
    | error d => exact ⟨d, rfl⟩
    | ok v => rw [hc] at h; simp [Except.isOk, Except.toBool] at h

/-- Witness for `c3_atomic_failure`: with a reasoning backend that always
raises, both variants answer with a 500 error response. -/
theorem c3_atomic_failure_witness :
    (∃ d, (MainApi.chat (errBackend "boom") (constBackend "answer" "id2") 0
      sampleRequestShow).1 = .error d) ∧
    (∃ d, (MainOllama.chat (errBackend "boom") 0 sampleRequestShow).1 = .error d) :=
  ⟨(c3_atomic_failure (errBackend "boom") (constBackend "answer" "id2") 0
      sampleRequestShow).2.1 (by decide),
   (c3_atomic_failure (errBackend "boom") (constBackend "answer" "id2") 0
      sampleRequestShow).2.2.2 (by decide)⟩

/-- C7: the two service variants build the response-stage message
sequences in the spec's fixed shapes.  Whenever the reasoning stage
succeeded (so the response-stage call is issued at all), the second
recorded call of the cross-service variant carries exactly
`[user: message, assistant: "<thinking>{reasoning}</thinking>"]`, and that
of the same-service variant carries exactly
`[system turn, user: message, assistant thinking turn, user follow-up]`. -/
theorem c7_response_message_shapes (ollama openrouter : Backend) (elapsed : Nat)
    (request : ChatRequest) (raw1 : RawResponse)
    (h1 : ollama MainApi.OLLAMA_MODEL (MainApi.reasoning_messages request.message)
      = .ok raw1)
    (h1' : ollama MainOllama.REASONING_MODEL (MainOllama.reasoning_messages request.message)
      = .ok raw1) :
    (MainApi.chat ollama openrouter elapsed request).2 =
      [⟨MainApi.OLLAMA_MODEL, MainApi.reasoning_messages request.message⟩,
       ⟨request.model,
        [⟨"user", request.message⟩,
         ⟨"assistant",
          "<thinking>" ++ extractReasoning raw1.content ++ "</thinking>"⟩]⟩] ∧
    (MainOllama.chat ollama elapsed request).2 =
      [⟨MainOllama.REASONING_MODEL, MainOllama.reasoning_messages request.message⟩,
       ⟨request.model,
        [⟨"system", "You are a helpful assistant that provides clear, accurate, and well-structured responses."⟩,
         ⟨"user", request.message⟩,
         ⟨"assistant",
          "<thinking>" ++ extractReasoning raw1.content ++ "</thinking>"⟩,
         ⟨"user", "Based on this reasoning, please provide a clear and comprehensive response."⟩]⟩] := by
  constructor
  · cases h2 : openrouter request.model
        (MainApi.claude_messages request.message (extractReasoning raw1.content)) with
    | error e =>
      simp only [MainApi.chat, MainApi.get_deepseek_reasoning,
        MainApi.get_claude_response, h1, h2]
      simp [MainApi.claude_messages]
    | ok raw2 =>
      simp only [MainApi.chat, MainApi.get_deepseek_reasoning,
        MainApi.get_claude_response, h1, h2]
      simp [MainApi.claude_messages]
  · cases h2 : ollama request.model
        (MainOllama.final_messages request.message (extractReasoning raw1.content)) with
    | error e =>
      simp only [MainOllama.chat, MainOllama.get_deepseek_reasoning,
        MainOllama.get_final_response, h1', h2]
      simp [MainOllama.final_messages]
    | ok raw2 =>
      simp only [MainOllama.chat, MainOllama.get_deepseek_reasoning,
        MainOllama.get_final_response, h1', h2]
      simp [MainOllama.final_messages]

/-- Witness for `c7_response_message_shapes` on an always-succeeding
backend. -/
theorem c7_response_message_shapes_witness :
    (MainApi.chat (constBackend "<think> four </think>tail" "id1")
        (constBackend "answer" "id2") 7 sampleRequestShow).2 =
      [⟨MainApi.OLLAMA_MODEL, MainApi.reasoning_messages sampleRequestShow.message⟩,
       ⟨sampleRequestShow.model,
        [⟨"user", sampleRequestShow.message⟩,
         ⟨"assistant",
          "<thinking>" ++ extractReasoning (RawResponse.mk "<think> four </think>tail" (some "id1")).content ++ "</thinking>"⟩]⟩] ∧
    (MainOllama.chat (constBackend "<think> four </think>tail" "id1") 7
        sampleRequestShow).2 =
      [⟨MainOllama.REASONING_MODEL, MainOllama.reasoning_messages sampleRequestShow.message⟩,
       ⟨sampleRequestShow.model,
        [⟨"system", "You are a helpful assistant that provides clear, accurate, and well-structured responses."⟩,
         ⟨"user", sampleRequestShow.message⟩,
         ⟨"assistant",
          "<thinking>" ++ extractReasoning (RawResponse.mk "<think> four </think>tail" (some "id1")).content ++ "</thinking>"⟩,
         ⟨"user", "Based on this reasoning, please provide a clear and comprehensive response."⟩]⟩] :=
  c7_response_message_shapes (constBackend "<think> four </think>tail" "id1")
    (constBackend "answer" "id2") 7 sampleRequestShow
    ⟨"<think> four </think>tail", some "id1"⟩ rfl rfl

/-- C8: for every successful `/chat` request, `show_reasoning = false`
forces the `reasoning` field of the 200 response body to the empty string
even when the chain produced non-empty reasoning, while
`show_reasoning = true` makes it the reasoning extracted from the first
stage's output.  Both service variants are covered. -/
theorem c8_show_reasoning_filter (ollama openrouter : Backend) (elapsed : Nat)
    (request : ChatRequest) (resp resp' : ChatResponse)
    (hA : (MainApi.chat ollama openrouter elapsed request).1 = .ok resp)
    (hB : (MainOllama.chat ollama elapsed request).1 = .ok resp') :
    (request.show_reasoning = false → resp.reasoning = "" ∧ resp'.reasoning = "") ∧
    (request.show_reasoning = true →
      (∃ raw1,
        ollama MainApi.OLLAMA_MODEL (MainApi.reasoning_messages request.message)
          = .ok raw1 ∧ resp.reasoning = extractReasoning raw1.content) ∧
      (∃ raw1,
        ollama MainOllama.REASONING_MODEL (MainOllama.reasoning_messages request.message)
          = .ok raw1 ∧ resp'.reasoning = extractReasoning raw1.content)) := by
  cases h1 : ollama MainApi.OLLAMA_MODEL (MainApi.reasoning_messages request.message) with
  | error e => simp [MainApi.chat, MainApi.get_deepseek_reasoning, h1] at hA
  | ok raw1 =>
  cases h2 : openrouter request.model
      (MainApi.claude_messages request.message (extractReasoning raw1.content)) with
  | error e =>
    simp [MainApi.chat, MainApi.get_deepseek_reasoning,
      MainApi.get_claude_response, h1, h2] at hA
  | ok raw2 =>
  cases h1' : ollama MainOllama.REASONING_MODEL (MainOllama.reasoning_messages request.message) with
  | error e => simp [MainOllama.chat, MainOllama.get_deepseek_reasoning, h1'] at hB
  | ok raw1' =>
  cases h2' : ollama request.model
      (MainOllama.final_messages request.message (extractReasoning raw1'.content)) with
  | error e =>
    simp [MainOllama.chat, MainOllama.get_deepseek_reasoning,
      MainOllama.get_final_response, h1', h2'] at hB
  | ok raw2' =>
  simp only [MainApi.chat, MainApi.get_deepseek_reasoning,
    MainApi.get_claude_response, h1, h2, Except.ok.injEq] at hA
  simp only [MainOllama.chat, MainOllama.get_deepseek_reasoning,
    MainOllama.get_final_response, h1', h2', Except.ok.injEq] at hB
  constructor
  · intro hfalse
    rw [← hA, ← hB]
    simp [hfalse]
  · intro htrue
    constructor
    · exact ⟨raw1, rfl, by rw [← hA]; simp [htrue]⟩
    · exact ⟨raw1', rfl, by rw [← hB]; simp [htrue]⟩

/-- Witness for `c8_show_reasoning_filter`, applied once with
`show_reasoning = false` (non-empty underlying reasoning, emptied field)
and once with `show_reasoning = true` (field equals the extraction). -/
theorem c8_show_reasoning_filter_witness :
    ((ChatResponse.mk "" "answer" "anthropic/claude-3.5-sonnet" 7 ⟨"id1", "id2"⟩).reasoning = "" ∧
     (ChatResponse.mk "" "<think> four </think>tail" "anthropic/claude-3.5-sonnet" 7 ⟨"id1", "id1"⟩).reasoning = "") ∧
    (∃ raw1,
      constBackend "<think> four </think>tail" "id1" MainApi.OLLAMA_MODEL
        (MainApi.reasoning_messages sampleRequestShow.message) = .ok raw1 ∧
      (ChatResponse.mk "four" "answer" "anthropic/claude-3.5-sonnet" 7 ⟨"id1", "id2"⟩).reasoning
        = extractReasoning raw1.content) :=
  ⟨(c8_show_reasoning_filter (constBackend "<think> four </think>tail" "id1")
      (constBackend "answer" "id2") 7 sampleRequestHide
      ⟨"", "answer", "anthropic/claude-3.5-sonnet", 7, "id1", "id2"⟩
      ⟨"", "<think> four </think>tail", "anthropic/claude-3.5-sonnet", 7, "id1", "id1"⟩
      (by rfl) (by rfl)).1 rfl,
   ((c8_show_reasoning_filter (constBackend "<think> four </think>tail" "id1")
      (constBackend "answer" "id2") 7 sampleRequestShow
      ⟨"four", "answer", "anthropic/claude-3.5-sonnet", 7, "id1", "id2"⟩
      ⟨"four", "<think> four </think>tail", "anthropic/claude-3.5-sonnet", 7, "id1", "id1"⟩
      (by rfl) (by rfl)).2 rfl).1⟩

/-! ## Multi-step agent workflows

`research_workflow.py` and `sales_qualification_workflow.py` run a fixed
ordered task list; each task's prompt embeds the accumulating context,
the step runs through the proxied chat chain, and the outcome is recorded
in a dict keyed by the task description. -/

structure Agent where
  name : String
  role : String
  goal : String
  backstory : String
deriving DecidableEq

structure Task where
  description : String
  expected_output : String
  agent : Agent
deriving DecidableEq

/-- Decoded body of a successful proxy `/chat` call as the workflows read
it: `result.get("reasoning", "")`, `result.get("response", "")` and
`result.get("elapsed_time", 0)`. -/
structure ExecResult where
  reasoning : String
  response : String
  elapsed_time : Nat
deriving DecidableEq

/-- One entry of the workflow results dict: on success the record with
reasoning, response and time, on failure the error record. -/
inductive StepOutcome where
  | ok (reasoning response : String) (time : Nat)
  | err (error : String)
deriving DecidableEq

/-- Python dict assignment `d[k] = v`: update in place, else append. -/
def dictInsert (k : String) (v : StepOutcome) :
    List (String × StepOutcome) → List (String × StepOutcome)
  | [] => [(k, v)]
  | (k', v') :: rest =>
    if k' = k then (k', v) :: rest else (k', v') :: dictInsert k v rest

/-- Python dict lookup `d[k]`. -/
def dictFind (k : String) : List (String × StepOutcome) → Option StepOutcome
  | [] => none
  | (k', v') :: rest => if k' = k then some v' else dictFind k rest

/-- The step loop shared by `ResearchWorkflow.process_topic`
(`research_workflow.py:142-231`) and
`SalesQualificationWorkflow.process_company`
(`sales_qualification_workflow.py:123-188`): for each task in order,
build the prompt from the running context, execute it through the step's
proxy LLM (`exec` models `task.agent.llm.execute`, indexed by the `i` of
`enumerate(self.tasks, 1)`; `none` is a falsy result), record the outcome
under the task description, and on success append the
`Previous Step` marker — which interpolates `task.agent.name` — plus the
response to the context; on failure record the error and continue with
the context unchanged. -/
def processLoop (exec : Nat → String → Option ExecResult)
    (promptOf : Task → String → String) :
    Nat → List Task → List (String × StepOutcome) → String →
      List (String × StepOutcome) × String
  | _, [], results, context => (results, context)
  | i, task :: rest, results, context =>
    let prompt := promptOf task context
    match exec i prompt with
    | some result =>
      processLoop exec promptOf (i + 1) rest
        (dictInsert task.description
          (StepOutcome.ok result.reasoning result.response result.elapsed_time)
          results)
        (context ++ "\n\nPrevious Step (" ++ task.agent.name ++ "):\n"
          ++ result.response)
    | none =>
      processLoop exec promptOf (i + 1) rest
        (dictInsert task.description (StepOutcome.err "Task failed") results)
        context

namespace Research

def literature_agent : Agent :=
  ⟨"Literature Reviewer", "Research Literature Analyst",
   "Review and analyze current research literature and developments",
   "Expert in analyzing scientific literature and research papers"⟩

def gap_agent : Agent :=
  ⟨"Gap Analyzer", "Research Gap Analyst",
   "Identify gaps, opportunities, and unexplored areas in research",
   "Expert in identifying research opportunities and potential breakthroughs"⟩

def methodology_agent : Agent :=
  ⟨"Methodology Expert", "Research Methodology Analyst",
   "Design and evaluate research methodologies and approaches",
   "Expert in research design and experimental methodology"⟩

def impact_agent : Agent :=
  ⟨"Impact Assessor", "Research Impact Analyst",
   "Evaluate potential impacts and future implications of research",
   "Expert in assessing research impact and future developments"⟩

def synthesis_agent : Agent :=
  ⟨"Research Synthesizer", "Research Report Writer",
   "Create a comprehensive, well-structured final research report",
   "Expert in research synthesis and technical writing"⟩

def tasks : List Task :=
  [⟨"Review current literature and research", "Comprehensive literature review",
    literature_agent⟩,
   ⟨"Analyze research gaps and opportunities",
    "Gap analysis and opportunity identification", gap_agent⟩,
   ⟨"Evaluate research methodologies",
    "Methodology assessment and recommendations", methodology_agent⟩,
   ⟨"Assess research impact and implications",
    "Impact analysis and future predictions", impact_agent⟩,
   ⟨"Synthesize final research report", "Comprehensive final report",
    synthesis_agent⟩]

/-- The synthesis-step prompt template of `research_workflow.py:148-198`. -/
def synthesis_prompt (topic context : String) : String :=
  "Research Topic: " ++ topic ++ "\n\nPrevious Analyses:\n" ++ context ++
  "\n\nYour task is to synthesize all previous analyses into a clear, comprehensive final report.\nFollow this structure:\n\nEXECUTIVE SUMMARY\n- Brief overview of key findings\n- Major implications\n- Critical recommendations\n\nCOMPREHENSIVE RESEARCH REPORT\n1. Introduction\n   - Research context\n   - Objectives\n   - Scope\n\n2. Literature Review Summary\n   - Current state of knowledge\n   - Key theories and concepts\n   - Recent developments\n\n3. Research Gaps and Opportunities\n   - Identified gaps\n   - Emerging opportunities\n   - Priority areas\n\n4. Methodology Assessment\n   - Research approaches\n   - Data collection methods\n   - Analysis techniques\n\n5. Impact Analysis\n   - Industry implications\n   - Societal impact\n   - Future predictions\n\n6. Recommendations\n   - Strategic priorities\n   - Action items\n   - Implementation considerations\n\n7. Conclusion\n   - Summary of findings\n   - Future research directions\n   - Final thoughts\n\nFormat the report professionally with clear sections, subsections, and bullet points where appropriate.\nFocus on clarity, actionability, and practical implications."

/-- The generic step prompt template of `research_workflow.py:200-211`. -/
def generic_prompt (topic context : String) (task : Task) : String :=
  "Research Topic: " ++ topic ++ "\n\nPrevious Analysis:\n" ++ context ++
  "\n\nYour Task: " ++ task.description ++ "\nAs a " ++ task.agent.role ++
  ", analyze this topic and provide:\n1. Detailed analysis based on your expertise\n2. Key findings and insights\n3. Recommendations for next steps\n\nBe thorough and analytical in your response."

/-- Prompt selection of `research_workflow.py:146-211`: the synthesis task
(recognised by its agent) gets the structured-report template, every
other task the generic one. -/
def prompt (topic : String) (task : Task) (context : String) : String :=
  if task.agent = synthesis_agent then synthesis_prompt topic context
  else generic_prompt topic context task

/-- `ResearchWorkflow.process_topic` (`research_workflow.py:134-232`). -/
def process_topic (exec : Nat → String → Option ExecResult) (topic : String) :
    List (String × StepOutcome) :=
  (processLoop exec (prompt topic) 1 tasks [] "").1

end Research

namespace Sales

def company_agent : Agent :=
  ⟨"Company Intelligence Gatherer", "Corporate Intelligence Analyst",
   "Gather and analyze comprehensive company information including history, operations, financials, team, and recent developments",
   "Expert in deep corporate research with access to extensive business intelligence resources"⟩

def compliance_agent : Agent :=
  ⟨"Operations Analyzer", "Business Operations Specialist",
   "Research and document company\x27s operational structure, locations, regulatory environment, and business model",
   "Expert in business operations analysis and regulatory frameworks"⟩

def competitor_agent : Agent :=
  ⟨"Market Intelligence Analyst", "Market Research Specialist",
   "Map out the company\x27s complete business ecosystem, partnerships, competitors, and market position",
   "Expert in competitive intelligence and market ecosystem analysis"⟩

def fit_agent : Agent :=
  ⟨"Business Analyst", "Strategic Business Analyst",
   "Synthesize all gathered information into a comprehensive company profile",
   "Expert in business analysis and strategic intelligence synthesis"⟩

def tasks : List Task :=
  [⟨"Conduct comprehensive company research",
    "Detailed company intelligence report", company_agent⟩,
   ⟨"Analyze operations and regulatory landscape",
    "Operations and regulatory analysis report", compliance_agent⟩,
   ⟨"Research market ecosystem and positioning",
    "Market intelligence report", competitor_agent⟩,
   ⟨"Synthesize comprehensive company profile",
    "Complete business analysis report", fit_agent⟩]

/-- The single step prompt template of
`sales_qualification_workflow.py:128-169`. -/
def prompt (company_name : String) (task : Task) (context : String) : String :=
  "Target Company: " ++ company_name ++ "\n\nPrevious Analysis:\n" ++ context ++
  "\n\nYour Task: " ++ task.description ++ "\nAs a " ++ task.agent.role ++
  ", conduct exhaustive research and provide:\n\n1. COMPREHENSIVE ANALYSIS:\n   - Company Overview: history, mission, vision\n   - Leadership Team: key executives, backgrounds\n   - Financial Information: revenue, funding, growth metrics\n   - Product/Service Portfolio: detailed offerings\n   - Technology Stack: systems and tools used\n   - Recent News: developments, announcements, press coverage\n   - Market Position: industry standing, market share\n   - Customer Base: target markets, key clients\n   - Partnerships: strategic relationships, integrations\n   - Growth Trajectory: expansion plans, historical growth\n   - Company Culture: values, employee reviews, workplace\n   - Legal/Regulatory Status: compliance, licenses, permits\n   - Geographic Presence: office locations, market reach\n   - Competitive Advantages: unique selling propositions\n   - Challenges: identified issues, market obstacles\n\n2. KEY FINDINGS:\n   - Most significant discoveries\n   - Unique insights\n   - Critical data points\n   - Notable trends\n\n3. INFORMATION SOURCES:\n   - List all sources used\n   - Credibility assessment\n   - Data freshness/timeliness\n   - Information gaps identified\n\nFocus on gathering and presenting ALL available accurate information. Be thorough and exhaustive in your research. Include both positive and negative findings. Cite sources where possible.\n\nIf you find conflicting information, present all versions with source context. If you\x27re unsure about something, explicitly state it rather than making assumptions.\n\nBe analytical and fact-focused in your response."

/-- `SalesQualificationWorkflow.process_company`
(`sales_qualification_workflow.py:115-190`). -/
def process_company (exec : Nat → String → Option ExecResult)
    (company_name : String) : List (String × StepOutcome) :=
  (processLoop exec (prompt company_name) 1 tasks [] "").1

end Sales

/-! ### Dict and loop lemmas -/

theorem dictInsert_keys (k : String) (v : StepOutcome) :
    ∀ d : List (String × StepOutcome), k ∉ d.map Prod.fst →
      (dictInsert k v d).map Prod.fst = d.map Prod.fst ++ [k] := by
  intro d
  induction d with
  | nil => intro _; rfl
  | cons p rest ih =>
    intro h
    have h1 : k ≠ p.1 := fun hk => h (by simp [hk])
    have h2 : k ∉ rest.map Prod.fst := fun hk => h (by simp [hk])
    obtain ⟨p1, p2⟩ := p
    have hne : ¬ p1 = k := fun hh => h1 (by simpa using hh.symm)
    simp [dictInsert, hne, ih h2]

theorem dictFind_dictInsert_self (k : String) (v : StepOutcome) :
    ∀ d, dictFind k (dictInsert k v d) = some v := by
  intro d
  induction d with
  | nil => simp [dictInsert, dictFind]
  | cons p rest ih =>
    obtain ⟨p1, p2⟩ := p
    by_cases hp : p1 = k
    · simp [dictInsert, dictFind, hp]
    · simp [dictInsert, dictFind, hp, ih]

theorem dictFind_dictInsert_ne (k q : String) (v : StepOutcome) (hne : q ≠ k) :
    ∀ d, dictFind k (dictInsert q v d) = dictFind k d := by
  intro d
  induction d with
  | nil => simp [dictInsert, dictFind, hne]
  | cons p rest ih =>
    obtain ⟨p1, p2⟩ := p
    by_cases hp : p1 = q
    · subst hp
      simp [dictInsert, dictFind, hne]
    · simp [dictInsert, dictFind, hp, ih]

/-- Entries whose keys are not touched by the remaining steps survive to
the final results dict. -/
theorem processLoop_find_frame (exec : Nat → String → Option ExecResult)
    (promptOf : Task → String → String) (k : String) :
    ∀ tasks : List Task, ∀ i results ctx, (∀ t ∈ tasks, t.description ≠ k) →
      dictFind k (processLoop exec promptOf i tasks results ctx).1
        = dictFind k results := by
  intro tasks
  induction tasks with
  | nil => intro i results ctx _; rfl
  | cons task rest ih =>
    intro i results ctx h
    have hd : task.description ≠ k := h task (by simp)
    have hr : ∀ t ∈ rest, t.description ≠ k := fun t ht => h t (by simp [ht])
    cases he : exec i (promptOf task ctx) with
    | some r =>
      simp only [processLoop, he]
      rw [ih _ _ _ hr, dictFind_dictInsert_ne k task.description _ hd]
    | none =>
      simp only [processLoop, he]
      rw [ih _ _ _ hr, dictFind_dictInsert_ne k task.description _ hd]

/-- The keys of the final results dict are the initial keys followed by
the task descriptions, in order. -/
theorem processLoop_keys (exec : Nat → String → Option ExecResult)
    (promptOf : Task → String → String) :
    ∀ tasks : List Task, ∀ i results ctx,
      (∀ t ∈ tasks, t.description ∉ results.map Prod.fst) →
      (tasks.map Task.description).Nodup →
      (processLoop exec promptOf i tasks results ctx).1.map Prod.fst
        = results.map Prod.fst ++ tasks.map Task.description := by
  intro tasks
  induction tasks with
  | nil => intro i results ctx _ _; simp [processLoop]
  | cons task rest ih =>
    intro i results ctx havoid hnodup
    have hmem : task.description ∉ results.map Prod.fst :=
      havoid task (by simp)
    have hn : (task.description :: rest.map Task.description).Nodup := by
      simpa using hnodup
    have hhead : ∀ t ∈ rest, t.description ≠ task.description := by
      intro t ht heq
      exact (List.nodup_cons.1 hn).1 (heq ▸ List.mem_map_of_mem Task.description ht)
    have havoid' : ∀ d : List (String × StepOutcome),
        d.map Prod.fst = results.map Prod.fst ++ [task.description] →
        ∀ t ∈ rest, t.description ∉ d.map Prod.fst := by
      intro d hd t ht hmem'
      rw [hd] at hmem'
      rcases List.mem_append.1 hmem' with hin | hin
      · exact havoid t (by simp [ht]) hin
      · exact hhead t ht (by simpa using hin)
    have hnodup' : (rest.map Task.description).Nodup := (List.nodup_cons.1 hn).2
    cases he : exec i (promptOf task ctx) with
    | some r =>
      simp only [processLoop, he]
      rw [ih _ _ _ (havoid' _ (dictInsert_keys _ _ _ hmem)) hnodup',
        dictInsert_keys _ _ _ hmem]
      simp
    | none =>
      simp only [processLoop, he]
      rw [ih _ _ _ (havoid' _ (dictInsert_keys _ _ _ hmem)) hnodup',
        dictInsert_keys _ _ _ hmem]
      simp

/-! ### Substring containment in the workflow prompts -/

theorem string_data_append (a b : String) : (a ++ b).data = a.data ++ b.data := by
  cases a; cases b; rfl

/-- `needle` occurs contiguously inside `hay`, at the character level. -/
def containsSub (needle hay : String) : Prop :=
  ∃ a b : List Char, hay.data = a ++ needle.data ++ b

theorem containsSub_appendR (resp hay t : String) (h : containsSub resp hay) :
    containsSub resp (hay ++ t) := by
  obtain ⟨a, b, hab⟩ := h
  exact ⟨a, b ++ t.data, by simp [string_data_append, hab, List.append_assoc]⟩

theorem containsSub_appendL (resp s hay : String) (h : containsSub resp hay) :
    containsSub resp (s ++ hay) := by
  obtain ⟨a, b, hab⟩ := h
  exact ⟨s.data ++ a, b, by simp [string_data_append, hab, List.append_assoc]⟩

theorem containsSub_suffix (resp c : String) (p : List Char)
    (hp : c.data = p ++ resp.data) : containsSub resp c :=
  ⟨p, [], by simp [hp]⟩

/-- Every research-workflow prompt embeds the running context, hence any
suffix of the context occurs in the prompt. -/
theorem prompt_contains_research (topic : String) (t : Task) (c resp : String)
    (p : List Char) (hp : c.data = p ++ resp.data) :
    containsSub resp (Research.prompt topic t c) := by
  unfold Research.prompt
  by_cases hsyn : t.agent = Research.synthesis_agent
  · rw [if_pos hsyn]
    unfold Research.synthesis_prompt
    apply containsSub_appendR
    apply containsSub_appendL
    exact containsSub_suffix resp c p hp
  · rw [if_neg hsyn]
    unfold Research.generic_prompt
    apply containsSub_appendR
    apply containsSub_appendR
    apply containsSub_appendR
    apply containsSub_appendR
    apply containsSub_appendR
    apply containsSub_appendL
    exact containsSub_suffix resp c p hp

/-- Every sales-workflow prompt embeds the running context, hence any
suffix of the context occurs in the prompt. -/
theorem prompt_contains_sales (company : String) (t : Task) (c resp : String)
    (p : List Char) (hp : c.data = p ++ resp.data) :
    containsSub resp (Sales.prompt company t c) := by
  unfold Sales.prompt
  apply containsSub_appendR
  apply containsSub_appendR
  apply containsSub_appendR
  apply containsSub_appendR
  apply containsSub_appendR
  apply containsSub_appendL
  exact containsSub_suffix resp c p hp

/-- All-success execution oracle, for witnesses. -/
def execAllOk : Nat → String → Option ExecResult := fun _ _ => some ⟨"re", "R", 3⟩

/-- All-failure execution oracle, for witnesses. -/
def execAllFail : Nat → String → Option ExecResult := fun _ _ => none

/-- Oracle under which step 1 succeeds with response "R" and every later
step fails. -/
def execStep1 : Nat → String → Option ExecResult :=
  fun i _ => if i = 1 then some ⟨"re", "R", 3⟩ else none

/-- C4 counterexample: the string appended to the running context
interpolates the step agent's NAME, not its role as the claim states.  In
the research workflow, step 1 (agent name "Literature Reviewer", agent
role "Research Literature Analyst") succeeding with response "R" while
all later steps fail leaves the final context equal to the name-based
marker and different from the role-based string the claim prescribes. -/
theorem c4_counterexample_marker_uses_name :
    (processLoop execStep1 (Research.prompt "T") 1 Research.tasks [] "").2
      = "\n\nPrevious Step (Literature Reviewer):\nR" ∧
    dictFind "Review current literature and research"
        (processLoop execStep1 (Research.prompt "T") 1 Research.tasks [] "").1
      = some (StepOutcome.ok "re" "R" 3) ∧
    Research.literature_agent.role = "Research Literature Analyst" ∧
    (processLoop execStep1 (Research.prompt "T") 1 Research.tasks [] "").2
      ≠ "\n\nPrevious Step (Research Literature Analyst):\nR" :=
  ⟨rfl, rfl, rfl, by decide⟩

/-- C4 (amended): for every pipeline run and every step that succeeds
with result `r`: the success outcome (reasoning, response, elapsed time)
is recorded under the step's description and survives to the final
mapping when no later step reuses the description; the exact string
appended to the running context is the `Previous Step` marker built from
the step's agent NAME (not its role) followed by the response; and every
prompt either concrete workflow builds from the extended context — in
particular the next step's prompt — contains the response verbatim as a
substring. -/
theorem c4_success_records_and_propagates
    (exec : Nat → String → Option ExecResult)
    (promptOf : Task → String → String) (i : Nat) (task : Task)
    (rest : List Task) (results : List (String × StepOutcome)) (ctx : String)
    (r : ExecResult)
    (hok : exec i (promptOf task ctx) = some r)
    (hk : ∀ t ∈ rest, t.description ≠ task.description) :
    processLoop exec promptOf i (task :: rest) results ctx
      = processLoop exec promptOf (i + 1) rest
          (dictInsert task.description
            (StepOutcome.ok r.reasoning r.response r.elapsed_time) results)
          (ctx ++ "\n\nPrevious Step (" ++ task.agent.name ++ "):\n"
            ++ r.response) ∧
    dictFind task.description
        (processLoop exec promptOf i (task :: rest) results ctx).1
      = some (StepOutcome.ok r.reasoning r.response r.elapsed_time) ∧
    (∀ topic t', containsSub r.response
      (Research.prompt topic t'
        (ctx ++ "\n\nPrevious Step (" ++ task.agent.name ++ "):\n"
          ++ r.response))) ∧
    (∀ company t', containsSub r.response
      (Sales.prompt company t'
        (ctx ++ "\n\nPrevious Step (" ++ task.agent.name ++ "):\n"
          ++ r.response))) := by
  have hstep : processLoop exec promptOf i (task :: rest) results ctx
      = processLoop exec promptOf (i + 1) rest
          (dictInsert task.description
            (StepOutcome.ok r.reasoning r.response r.elapsed_time) results)
          (ctx ++ "\n\nPrevious Step (" ++ task.agent.name ++ "):\n"
            ++ r.response) := by
    simp only [processLoop, hok]
  refine ⟨hstep, ?_, ?_, ?_⟩
  · rw [hstep,
      processLoop_find_frame exec promptOf task.description rest (i + 1) _ _ hk,
      dictFind_dictInsert_self]
  · intro topic t'
    exact prompt_contains_research topic t' _ r.response _
      (string_data_append _ r.response)
  · intro company t'
    exact prompt_contains_sales company t' _ r.response _
      (string_data_append _ r.response)

/-- Witness for `c4_success_records_and_propagates`: step 1 of the
research workflow under the all-success oracle. -/
theorem c4_success_records_and_propagates_witness :
    (processLoop execAllOk (Research.prompt "T") 1 Research.tasks [] ""
      = processLoop execAllOk (Research.prompt "T") 2 Research.tasks.tail
          (dictInsert "Review current literature and research"
            (StepOutcome.ok "re" "R" 3) [])
          ("" ++ "\n\nPrevious Step (" ++ "Literature Reviewer" ++ "):\n"
            ++ "R")) ∧
    dictFind "Review current literature and research"
        (processLoop execAllOk (Research.prompt "T") 1 Research.tasks [] "").1
      = some (StepOutcome.ok "re" "R" 3) ∧
    containsSub "R"
      (Research.prompt "T"
        ⟨"Analyze research gaps and opportunities",
         "Gap analysis and opportunity identification", Research.gap_agent⟩
        ("" ++ "\n\nPrevious Step (" ++ "Literature Reviewer" ++ "):\n"
          ++ "R")) ∧
    containsSub "R"
      (Sales.prompt "Acme"
        ⟨"Analyze operations and regulatory landscape",
         "Operations and regulatory analysis report", Sales.compliance_agent⟩
        ("" ++ "\n\nPrevious Step (" ++ "Literature Reviewer" ++ "):\n"
          ++ "R")) := by
  have h := c4_success_records_and_propagates execAllOk (Research.prompt "T") 1
    ⟨"Review current literature and research", "Comprehensive literature review",
     Research.literature_agent⟩
    Research.tasks.tail [] "" ⟨"re", "R", 3⟩ rfl (by decide)
  exact ⟨h.1, h.2.1,
    h.2.2.1 "T" ⟨"Analyze research gaps and opportunities",
      "Gap analysis and opportunity identification", Research.gap_agent⟩,
    h.2.2.2 "Acme" ⟨"Analyze operations and regulatory landscape",
      "Operations and regulatory analysis report", Sales.compliance_agent⟩⟩

/-- C5: when a step fails, the pipeline does not abort — the loop records
the error outcome under the failed step's description (and, when no later
step reuses the description, it survives to the final mapping) and
continues with the remaining steps, the running context passed on
unchanged: the next step's prompt is built from exactly the context that
built the failed step's own prompt. -/
theorem c5_failure_keeps_context
    (exec : Nat → String → Option ExecResult)
    (promptOf : Task → String → String) (i : Nat) (task : Task)
    (rest : List Task) (results : List (String × StepOutcome)) (ctx : String)
    (hfail : exec i (promptOf task ctx) = none)
    (hk : ∀ t ∈ rest, t.description ≠ task.description) :
    processLoop exec promptOf i (task :: rest) results ctx
      = processLoop exec promptOf (i + 1) rest
          (dictInsert task.description (StepOutcome.err "Task failed") results)
          ctx ∧
    dictFind task.description
        (processLoop exec promptOf i (task :: rest) results ctx).1
      = some (StepOutcome.err "Task failed") := by
  have hstep : processLoop exec promptOf i (task :: rest) results ctx
      = processLoop exec promptOf (i + 1) rest
          (dictInsert task.description (StepOutcome.err "Task failed") results)
          ctx := by
    simp only [processLoop, hfail]
  refine ⟨hstep, ?_⟩
  rw [hstep,
    processLoop_find_frame exec promptOf task.description rest (i + 1) _ _ hk,
    dictFind_dictInsert_self]

/-- Witness for `c5_failure_keeps_context`: step 1 of the sales workflow
under the all-failure oracle. -/
theorem c5_failure_keeps_context_witness :
    (processLoop execAllFail (Sales.prompt "Acme") 1 Sales.tasks [] ""
      = processLoop execAllFail (Sales.prompt "Acme") 2 Sales.tasks.tail
          (dictInsert "Conduct comprehensive company research"
            (StepOutcome.err "Task failed") []) "") ∧
    dictFind "Conduct comprehensive company research"
        (processLoop execAllFail (Sales.prompt "Acme") 1 Sales.tasks [] "").1
      = some (StepOutcome.err "Task failed") :=
  c5_failure_keeps_context execAllFail (Sales.prompt "Acme") 1
    ⟨"Conduct comprehensive company research",
     "Detailed company intelligence report", Sales.company_agent⟩
    Sales.tasks.tail [] "" rfl (by decide)

/-- C6: a pipeline run over `N` steps with pairwise-distinct descriptions
returns a mapping with exactly `N` entries, keyed by the step
descriptions in order, each value a success record or an error record,
however many steps failed; instantiated to both concrete workflows (5 and
4 steps). -/
theorem c6_results_cover_all_steps (exec : Nat → String → Option ExecResult)
    (promptOf : Task → String → String) (tasks : List Task)
    (topic company : String)
    (hnodup : (tasks.map Task.description).Nodup) :
    ((processLoop exec promptOf 1 tasks [] "").1.map Prod.fst
        = tasks.map Task.description) ∧
    (processLoop exec promptOf 1 tasks [] "").1.length = tasks.length ∧
    (∀ p ∈ (processLoop exec promptOf 1 tasks [] "").1,
      (∃ re res ti, p.2 = StepOutcome.ok re res ti) ∨
        ∃ m, p.2 = StepOutcome.err m) ∧
    (Research.process_topic exec topic).map Prod.fst
        = Research.tasks.map Task.description ∧
    (Sales.process_company exec company).map Prod.fst
        = Sales.tasks.map Task.description := by
  have hkeys := processLoop_keys exec promptOf tasks 1 [] "" (by simp) hnodup
  simp only [List.map_nil, List.nil_append] at hkeys
  refine ⟨hkeys, ?_, ?_, ?_, ?_⟩
  · have hlen := congrArg List.length hkeys
    simpa using hlen
  · intro p _
    cases hv : p.2 with
    | ok a b c => exact Or.inl ⟨a, b, c, rfl⟩
    | err m => exact Or.inr ⟨m, rfl⟩
  · have h5 := processLoop_keys exec (Research.prompt topic) Research.tasks 1 [] ""
      (by simp) (by decide)
    simpa [Research.process_topic] using h5
  · have h4 := processLoop_keys exec (Sales.prompt company) Sales.tasks 1 [] ""
      (by simp) (by decide)
    simpa [Sales.process_company] using h4

/-- Witness for `c6_results_cover_all_steps` on the research task list
with the oracle under which only step 1 succeeds. -/
theorem c6_results_cover_all_steps_witness :
    ((processLoop execStep1 (Research.prompt "T") 1 Research.tasks [] "").1.map Prod.fst
        = Research.tasks.map Task.description) ∧
    (processLoop execStep1 (Research.prompt "T") 1 Research.tasks [] "").1.length
        = Research.tasks.length ∧
    (Research.process_topic execStep1 "T").map Prod.fst
        = Research.tasks.map Task.description ∧
    (Sales.process_company execStep1 "Acme").map Prod.fst
        = Sales.tasks.map Task.description := by
  have h := c6_results_cover_all_steps execStep1 (Research.prompt "T")
    Research.tasks "T" "Acme" (by decide)
  exact ⟨h.1, h.2.1, h.2.2.2.1, h.2.2.2.2⟩

/-! ## Internet search tool

`internet_search_tool` in `research_workflow.py:12-25`,
`sales_qualification_workflow.py:12-25` and `simple_flow.py:12-33` (three
identical copies). -/

/-- One raw result dict yielded by the DuckDuckGo provider; optional
fields model `result.get("title", "")`, `result.get("link", "")`,
`result.get("body", "")`. -/
structure DDGRaw where
  title : Option String
  link : Option String
  body : Option String
deriving DecidableEq

/-- One record of the tool's result list. -/
structure SearchRecord where
  title : String
  url : String
  snippet : String
deriving DecidableEq

/-- `internet_search_tool(query)`: iterate over
`DDGS().text(keywords=query, max_results=5)` accumulating records, with
the whole body under a `try` whose handler only prints; return the
accumulated list.  `provider` models the outcome of constructing `DDGS`
and calling `text` for the given query: since `text` returns a fully
materialised list, any provider exception is raised before the loop
appends anything, so a failure yields the empty accumulator.  The tool
itself is total — it never raises. -/
def internet_search_tool (provider : Except String (List DDGRaw)) :
    List SearchRecord :=
  match provider with
  | .error _ => []
  | .ok items =>
    items.map fun res => ⟨res.title.getD "", res.link.getD "", res.body.getD ""⟩

/-- C9: for every query the search tool returns an ordered list of at
most 5 title/url/snippet records — given that the provider honours
`max_results=5` — and never raises (it is a total function); when the
provider fails it returns the empty list rather than an error. -/
theorem c9_search_tool_bounded_and_total (provider : Except String (List DDGRaw))
    (hmax : ∀ items, provider = .ok items → items.length ≤ 5) :
    (internet_search_tool provider).length ≤ 5 ∧
    ∀ e, provider = .error e → internet_search_tool provider = [] := by
  constructor
  · cases hp : provider with
    | error e => simp [internet_search_tool]
    | ok items =>
      simpa [internet_search_tool] using hmax items hp
  · intro e he
    rw [he]
    rfl

/-- Witness for `c9_search_tool_bounded_and_total`: a three-result
provider stays within the bound; a failing provider yields `[]`. -/
theorem c9_search_tool_bounded_and_total_witness :
    (internet_search_tool (Except.ok
        [⟨some "t1", some "u1", some "s1"⟩,
         ⟨some "t2", none, some "s2"⟩,
         ⟨none, some "u3", none⟩])).length ≤ 5 ∧
    internet_search_tool (Except.error "rate limited") = [] :=
  ⟨(c9_search_tool_bounded_and_total
      (Except.ok
        [⟨some "t1", some "u1", some "s1"⟩,
         ⟨some "t2", none, some "s2"⟩,
         ⟨none, some "u3", none⟩])
      (by intro items h; cases h; decide)).1,
   (c9_search_tool_bounded_and_total (Except.error "rate limited")
      (by intro items h; cases h)).2 "rate limited" rfl⟩

/-! ## Proxy API tool (`proxy_config.py`) -/

/-- Outcome of the `httpx` POST inside `ProxyAPITool.execute`: either a
raised exception (connection error, timeout, ...), or an HTTP response
with a status code and a body whose JSON decoding (`response.json()`) may
itself raise. -/
inductive TransportResult (α : Type) where
  | exn (msg : String)
  | response (status : Nat) (body : Except String α)

namespace ProxyAPITool

/-- `ProxyAPITool.execute` (`proxy_config.py:53-84`): on a 200 status
return the decoded body; on any other status log and return `None`
(discarding the status code and body text); any exception — transport or
JSON decoding, both inside the `try` — is caught and yields `None`. -/
def execute {α : Type} (tr : TransportResult α) : Option α :=
  match tr with
  | .exn _ => none
  | .response status body =>
    if status = 200 then
      match body with
      | .ok decoded => some decoded
      | .error _ => none
    else none

end ProxyAPITool

/-- C10: the step-execution client is total at its interface — for every
input it returns `none` on any transport exception and on any non-200
status (dropping the underlying error detail), and it returns a decoded
body only for a 200 response; a pipeline caller therefore never observes
an exception from a step invocation, only a `none` result. -/
theorem c10_proxy_execute_total {α : Type} (tr : TransportResult α) :
    (∀ m, tr = .exn m → ProxyAPITool.execute tr = none) ∧
    (∀ s b, tr = .response s b → s ≠ 200 → ProxyAPITool.execute tr = none) ∧
    (∀ j, ProxyAPITool.execute tr = some j →
      ∃ b, tr = .response 200 b ∧ b = .ok j) := by
  refine ⟨?_, ?_, ?_⟩
  · intro m hm
    rw [hm]
    rfl
  · intro s b hb hs
    rw [hb]
    simp [ProxyAPITool.execute, hs]
  · intro j hj
    cases tr with
    | exn m => simp [ProxyAPITool.execute] at hj
    | response s b =>
      by_cases hs : s = 200
      · subst hs
        cases b with
        | ok decoded =>
          simp only [ProxyAPITool.execute, if_pos rfl] at hj
          exact ⟨Except.ok decoded, rfl, by rw [Option.some.inj hj]⟩
        | error e => simp [ProxyAPITool.execute] at hj
      · simp [ProxyAPITool.execute, hs] at hj

/-- Witness for `c10_proxy_execute_total` at a transport exception, a 500
response, and a decoded 200 response. -/
theorem c10_proxy_execute_total_witness :
    ProxyAPITool.execute (TransportResult.exn "connection refused" : TransportResult Nat)
      = none ∧
    ProxyAPITool.execute
        (TransportResult.response 500 (Except.error "detail") : TransportResult Nat)
      = none ∧
    ∃ b, (TransportResult.response 200 (Except.ok 7) : TransportResult Nat)
        = TransportResult.response 200 b ∧ b = Except.ok 7 :=
  ⟨(c10_proxy_execute_total (TransportResult.exn "connection refused" :
      TransportResult Nat)).1 "connection refused" rfl,
   (c10_proxy_execute_total (TransportResult.response 500 (Except.error "detail") :
      TransportResult Nat)).2.1 500 (Except.error "detail") rfl (by decide),
   (c10_proxy_execute_total (TransportResult.response 200 (Except.ok 7) :
      TransportResult Nat)).2.2 7 rfl⟩

end ReasoningMashup
